import Mathlib

/-!
Shallow embedding of the pyfoscam Command Protocol Engine
(src/libpyfoscam/foscam.py): error codes, camera construction
(`FoscamCamera.__init__`), command-URL construction, response decoding and
dispatch (`FoscamCamera.send_command`, `FoscamCamera.execute_command`) and the
motion-detection composite operation (`FoscamCamera.set_motion_detection`).

Network transport (`urlopen`) and the stdlib XML parser (`ET.fromstring`) are
external effects, so they enter the embedding as explicit function parameters
(`fetch`, `parse`); everything translated from the repository itself is an
executable Lean definition.  Python byte strings are modelled as Lean
`String`s (one `Char` per byte for the data the claims exercise).
-/

/-! ## Foscam error codes (module-level constants in foscam.py) -/

def FOSCAM_SUCCESS : Int := 0

def ERROR_FOSCAM_FORMAT : Int := -1

def ERROR_FOSCAM_AUTH : Int := -2

def ERROR_FOSCAM_CMD : Int := -3

def ERROR_FOSCAM_EXE : Int := -4

def ERROR_FOSCAM_TIMEOUT : Int := -5

def ERROR_FOSCAM_UNKNOWN : Int := -7

def ERROR_FOSCAM_UNAVAILABLE : Int := -8

/-- True when the `import ssl` at module load succeeded; the embedding models
the ordinary environment where the ssl module is available. -/
def ssl_enabled : Bool := true

/-! ## Python scalar values -/

/-- Python scalars flowing through the engine: decoded field values are `str`
or `None`, and `set_motion_detection` inserts an `int` into the mapping. -/
inductive PyVal where
  | vStr (s : String)
  | vInt (n : Int)
  | vNone
deriving DecidableEq, Repr

/-- Coercion `str(v)` that `urlencode` applies to keys and values
(`str(None)` is the string `None`, `str(-2)` is `-2`). -/
def pyStrOfVal : PyVal → String
  | .vStr s => s
  | .vInt n => toString n
  | .vNone => "None"

/-! ## urllib.parse.quote_plus / urlencode / unquote, int() -/

/-- UTF-8 bytes of a code point, used by quote_plus for non-ASCII chars. -/
def utf8Bytes (n : Nat) : List Nat :=
  if n < 128 then [n]
  else if n < 2048 then [192 + n / 64, 128 + n % 64]
  else if n < 65536 then [224 + n / 4096, 128 + n / 64 % 64, 128 + n % 64]
  else [240 + n / 262144, 128 + n / 4096 % 64, 128 + n / 64 % 64, 128 + n % 64]

/-- Upper-case hex digit, as CPython's quote uses. -/
def hexUpper (n : Nat) : Char :=
  if n < 10 then Char.ofNat (48 + n) else Char.ofNat (55 + n)

/-- Percent-escape of one byte: `%XX`. -/
def pctByte (n : Nat) : List Char := ['%', hexUpper (n / 16), hexUpper (n % 16)]

/-- CPython's ALWAYS_SAFE set: ASCII alphanumerics and `_.-~`. -/
def alwaysSafe (c : Char) : Bool :=
  c.isAlpha || c.isDigit || c = '_' || c = '.' || c = '-' || c = '~'

/-- quote_plus on a single character: safe chars kept, space becomes `+`,
everything else percent-escaped bytewise (UTF-8 for non-ASCII). -/
def quotePlusChar (c : Char) : List Char :=
  if alwaysSafe c then [c]
  else if c = ' ' then ['+']
  else (utf8Bytes c.toNat).flatMap pctByte

/-- urllib.parse.quote_plus over a whole string. -/
def quotePlus (s : String) : String := ⟨s.data.flatMap quotePlusChar⟩

/-- str.join with a separator, as CPython's "&".join used by urlencode. -/
def joinSep (sep : String) : List String → String
  | [] => ""
  | [a] => a
  | a :: rest => a ++ (sep ++ joinSep sep rest)

/-- One urlencoded pair: `quote_plus(str(k)) + "=" + quote_plus(str(v))`. -/
def pairEnc (kv : String × PyVal) : String :=
  quotePlus kv.1 ++ ("=" ++ quotePlus (pyStrOfVal kv.2))

/-- urllib.parse.urlencode on an ordered mapping: quote_plus-encoded
`key=value` pairs joined by `&`, in insertion order. -/
def urlencode (l : List (String × PyVal)) : String :=
  joinSep "&" (l.map pairEnc)

/-- Value of a hex digit character, if it is one. -/
def hexVal (c : Char) : Option Nat :=
  if '0' ≤ c ∧ c ≤ '9' then some (c.toNat - 48)
  else if 'A' ≤ c ∧ c ≤ 'F' then some (c.toNat - 55)
  else if 'a' ≤ c ∧ c ≤ 'f' then some (c.toNat - 87)
  else none

/-- urllib.parse.unquote over byte strings: each valid `%XX` escape becomes
the byte `XX`, invalid escapes are kept verbatim.  (Multi-byte UTF-8 escape
sequences are decoded bytewise; the protocol data the engine handles is
ASCII.) -/
def unquoteL : List Char → List Char
  | '%' :: a :: b :: rest =>
    match hexVal a, hexVal b with
    | some x, some y => Char.ofNat (16 * x + y) :: unquoteL rest
    | _, _ => '%' :: unquoteL (a :: b :: rest)
  | c :: rest => c :: unquoteL rest
  | [] => []

/-- urllib.parse.unquote on a string. -/
def unquote (s : String) : String := ⟨unquoteL s.data⟩

/-- Python whitespace stripped by int(). -/
def pyWs (c : Char) : Bool :=
  c = ' ' || c = '\t' || c = '\n' || c = '\r' || c = '\x0b' || c = '\x0c'

/-- Accumulate a decimal value while every remaining char is a digit. -/
def digitsCore : List Char → Nat → Option Nat
  | [], acc => some acc
  | c :: rest, acc =>
    if c.isDigit then digitsCore rest (acc * 10 + (c.toNat - 48)) else none

/-- Value of a nonempty all-digit string, else `none`. -/
def digitsVal : List Char → Option Nat
  | [] => none
  | l => digitsCore l 0

/-- Python `int(s)` on a str: optional surrounding whitespace, optional sign,
then decimal digits; anything else raises ValueError (`Except.error`).
(Numeric-literal underscores are not modelled.) -/
def pyIntStr (s : String) : Except Unit Int :=
  let l := ((s.data.dropWhile pyWs).reverse.dropWhile pyWs).reverse
  match l with
  | '+' :: rest =>
    match digitsVal rest with
    | some n => .ok (Int.ofNat n)
    | none => .error ()
  | '-' :: rest =>
    match digitsVal rest with
    | some n => .ok (-(Int.ofNat n))
    | none => .error ()
  | rest =>
    match digitsVal rest with
    | some n => .ok (Int.ofNat n)
    | none => .error ()

/-- Python `int(x)` where `x` is `element.text`: `int(None)` raises
TypeError, a str is parsed as a decimal integer. -/
def pyInt : Option String → Except Unit Int
  | none => .error ()
  | some s => pyIntStr s

/-! ## XML elements (xml.etree.ElementTree) -/

/-- An ElementTree element: tag, text (None for an element with no text) and
child elements in document order. -/
inductive Xml where
  | elem (tag : String) (text : Option String) (children : List Xml)
deriving Repr

mutual

/-- `element.iter()`: the element itself followed by all descendants in
document (preorder) order. -/
def Xml.iter : Xml → List Xml
  | .elem t x cs => .elem t x cs :: Xml.iterList cs

/-- iter over a list of sibling elements. -/
def Xml.iterList : List Xml → List Xml
  | [] => []
  | c :: rest => c.iter ++ Xml.iterList rest

end

/-! ## Ordered field mapping (collections.OrderedDict) -/

/-- The ordered mapping of decoded response fields. -/
abbrev Fields := List (String × PyVal)

/-- `d[k] = v` on an ordered dict: an existing key keeps its position and gets
the new value; a new key is appended at the end. -/
def odSet : Fields → String → PyVal → Fields
  | [], k, v => [(k, v)]
  | (k0, v0) :: rest, k, v =>
    if k0 = k then (k, v) :: rest else (k0, v0) :: odSet rest k v

/-! ## FoscamCamera construction -/

/-- State of one `FoscamCamera` after `__init__` has resolved the ssl flag. -/
structure FoscamCamera where
  host : String
  port : Nat
  usr : String
  pwd : String
  daemon : Bool
  ssl : Bool
  verbose : Bool
deriving DecidableEq, Repr

/-- `FoscamCamera.__init__(host, port, usr, pwd, daemon, ssl, verbose)`:
stores the fields and resolves `self.ssl` — when the ssl module is available,
port 443 with `ssl=None` turns it on; a remaining `None` becomes `False`. -/
def mkCamera (host : String) (port : Nat) (usr : String) (pwd : String)
    (daemon : Bool) (ssl : Option Bool) (verbose : Bool) : FoscamCamera :=
  let s1 := if ssl_enabled then
      (if port = 443 ∧ ssl = none then some true else ssl)
    else ssl
  let s2 := match s1 with
    | none => false
    | some b => b
  { host := host, port := port, usr := usr, pwd := pwd,
    daemon := daemon, ssl := s2, verbose := verbose }

/-- The `url` property: `f"{self.host}:{self.port}"`. -/
def FoscamCamera.url (c : FoscamCamera) : String :=
  c.host ++ (":" ++ toString c.port)

/-! ## Command URL construction (send_command, lines 78-85) -/

/-- The `paramstr` computed at the top of `send_command`: empty for an absent
or empty mapping, otherwise `&` followed by the urlencoded parameters. -/
def paramStr (params : Option (List (String × PyVal))) : String :=
  match params with
  | some l =>
    if l = [] then ""
    else if urlencode l = "" then "" else "&" ++ urlencode l
  | none => ""

/-- The f-string command URL of `send_command` before the TLS rewrite:
`http://{host}:{port}/cgi-bin/CGIProxy.fcgi?usr={usr}&pwd={pwd}&cmd={cmd}{paramstr}`. -/
def buildCmdUrlHttp (c : FoscamCamera) (cmd : String)
    (params : Option (List (String × PyVal))) : String :=
  "http://" ++ (c.url ++ ("/cgi-bin/CGIProxy.fcgi?usr=" ++ (c.usr ++
    ("&pwd=" ++ (c.pwd ++ ("&cmd=" ++ (cmd ++ paramStr params)))))))

/-- Head test for the literal substring `http:`. -/
def startsHttp : List Char → Bool
  | 'h' :: 't' :: 't' :: 'p' :: ':' :: _ => true
  | _ => false

/-- Python `str.replace("http:", "https:")` over the characters: scan left to
right, replacing every (non-overlapping) occurrence. -/
def replaceHttpL : List Char → List Char
  | 'h' :: 't' :: 't' :: 'p' :: ':' :: rest =>
    'h' :: 't' :: 't' :: 'p' :: 's' :: ':' :: replaceHttpL rest
  | c :: rest => c :: replaceHttpL rest
  | [] => []

/-- Whether `http:` occurs anywhere in the character list. -/
def hasSubHttp : List Char → Bool
  | [] => false
  | c :: rest => startsHttp (c :: rest) || hasSubHttp rest

/-- `cmdurl.replace("http:", "https:")` on strings. -/
def replaceHttp (s : String) : String := ⟨replaceHttpL s.data⟩

/-- The command URL actually fetched: the http URL, rewritten by
`replace("http:", "https:")` when `self.ssl and ssl_enabled`. -/
def buildCmdUrl (c : FoscamCamera) (cmd : String)
    (params : Option (List (String × PyVal))) : String :=
  if c.ssl && ssl_enabled then replaceHttp (buildCmdUrlHttp c cmd params)
  else buildCmdUrlHttp c cmd params

/-! ## send_command -/

/-- Outcome of `urlopen(cmdurl, timeout=5).read()`: either some raised
exception (DNS failure, refusal, timeout, TLS error) or the response bytes. -/
inductive FetchResult where
  | err
  | bytes (raw : String)
deriving DecidableEq, Repr

/-- The second component of `send_command`'s returned pair: `None`, a decoded
field mapping, or the raw response bytes. -/
inductive Resp where
  | noneV
  | fields (fs : Fields)
  | raw (b : String)
deriving DecidableEq, Repr

/-- One iteration of `for child in root.iter()`: tag `result` parses the code
(`int` may raise), the literal tag `CGI_Result` is skipped, any other tag is
stored in the ordered mapping with its unquoted text (or None). -/
def decodeStep (st : Int × Fields) (child : Xml) : Except Unit (Int × Fields) :=
  match child with
  | .elem tag text _ =>
    if tag = "result" then
      match pyInt text with
      | .ok n => .ok (n, st.2)
      | .error e => .error e
    else if tag = "CGI_Result" then .ok st
    else
      .ok (st.1, odSet st.2 tag (match text with
        | some t => PyVal.vStr (unquote t)
        | none => PyVal.vNone))

/-- The decode loop of `send_command` (lines 102-115): starts with code
`ERROR_FOSCAM_UNKNOWN` and an empty OrderedDict, folds over `root.iter()`;
this loop sits outside the try/except, so an `int()` failure propagates. -/
def decodeAll (root : Xml) : Except Unit (Int × Fields) :=
  root.iter.foldlM decodeStep (ERROR_FOSCAM_UNKNOWN, ([] : Fields))

/-- `FoscamCamera.send_command(cmd, params, raw)`, with the two external
effects as parameters: `fetch` is `urlopen(url).read()` and `parse` is
`ET.fromstring`.  The try/except covers the fetch, the raw-mode return and
the XML parse; the decode loop runs after it. -/
def sendCommand (c : FoscamCamera) (fetch : String → FetchResult)
    (parse : String → Except Unit Xml) (cmd : String)
    (params : Option (List (String × PyVal))) (raw : Bool) :
    Except Unit (Int × Resp) :=
  let cmdurl := buildCmdUrl c cmd params
  match fetch cmdurl with
  | .err => .ok (ERROR_FOSCAM_UNAVAILABLE, .noneV)
  | .bytes b =>
    if raw then .ok (FOSCAM_SUCCESS, .raw b)
    else
      match parse b with
      | .error _ => .ok (ERROR_FOSCAM_UNAVAILABLE, .noneV)
      | .ok root =>
        match decodeAll root with
        | .error e => .error e
        | .ok (code, fs) => .ok (code, .fields fs)

/-! ## execute_command -/

/-- The inner `execute_with_callbacks`: runs `send_command` and, when a
callback was supplied, invokes it once with the resulting pair; the second
component records the callback invocations. -/
def executeWithCallbacks (c : FoscamCamera) (fetch : String → FetchResult)
    (parse : String → Except Unit Xml) (cmd : String)
    (params : Option (List (String × PyVal))) (hasCallback : Bool)
    (raw : Bool) : Except Unit ((Int × Resp) × List (Int × Resp)) :=
  match sendCommand c fetch parse cmd params raw with
  | .error e => .error e
  | .ok r => .ok (r, if hasCallback then [r] else [])

/-- `FoscamCamera.execute_command`: in daemon mode a background thread runs
`execute_with_callbacks` and the caller gets `None` (a thread exception dies
with the thread); otherwise the caller gets the pair directly.  The first
component is the value returned to the caller, the second the list of
callback invocations. -/
def executeCommand (c : FoscamCamera) (fetch : String → FetchResult)
    (parse : String → Except Unit Xml) (cmd : String)
    (params : Option (List (String × PyVal))) (hasCallback : Bool)
    (raw : Bool) : Except Unit (Option (Int × Resp)) × List (Int × Resp) :=
  if c.daemon then
    (.ok none,
      match executeWithCallbacks c fetch parse cmd params hasCallback raw with
      | .error _ => []
      | .ok (_, cbs) => cbs)
  else
    match executeWithCallbacks c fetch parse cmd params hasCallback raw with
    | .error e => (.error e, [])
    | .ok (r, cbs) => (.ok (some r), cbs)

/-! ## Motion-detection composite operation -/

/-- `FoscamCamera.get_motion_detect_config()` (callback=None). -/
def getMotionDetectConfig (c : FoscamCamera) (fetch : String → FetchResult)
    (parse : String → Except Unit Xml) :
    Except Unit (Option (Int × Resp)) × List (Int × Resp) :=
  executeCommand c fetch parse "getMotionDetectConfig" none false false

/-- `FoscamCamera.set_motion_detect_config(params)` (callback=None). -/
def setMotionDetectConfig (c : FoscamCamera) (fetch : String → FetchResult)
    (parse : String → Except Unit Xml) (params : List (String × PyVal)) :
    Except Unit (Option (Int × Resp)) × List (Int × Resp) :=
  executeCommand c fetch parse "setMotionDetectConfig" (some params) false false

/-- Instrumentation log of the engine calls a composite operation issues:
command name and, for a set, the parameter mapping passed (the spy/counter
the testable properties ask for). -/
abbrev CallLog := List (String × Option (List (String × PyVal)))

/-- `FoscamCamera.set_motion_detection(enabled)`: get the current config; on
a non-success code return it unchanged; otherwise assign
`current_config["isEnable"] = enabled`, send the set command, discard its
result and return `FOSCAM_SUCCESS`.  Unpacking a daemon-mode `None`, or
indexing a non-dict config, raises (Except.error); the second component is
the instrumentation log of commands issued. -/
def setMotionDetection (c : FoscamCamera) (fetch : String → FetchResult)
    (parse : String → Except Unit Xml) (enabled : Int) :
    Except Unit Int × CallLog :=
  match (getMotionDetectConfig c fetch parse).1 with
  | .error e => (.error e, [("getMotionDetectConfig", none)])
  | .ok none => (.error (), [("getMotionDetectConfig", none)])
  | .ok (some (result, currentConfig)) =>
    if result ≠ FOSCAM_SUCCESS then (.ok result, [("getMotionDetectConfig", none)])
    else
      match currentConfig with
      | .fields fs =>
        let fs2 := odSet fs "isEnable" (PyVal.vInt enabled)
        (match (setMotionDetectConfig c fetch parse fs2).1 with
          | .error e =>
            (.error e, [("getMotionDetectConfig", none), ("setMotionDetectConfig", some fs2)])
          | .ok _ =>
            (.ok FOSCAM_SUCCESS,
              [("getMotionDetectConfig", none), ("setMotionDetectConfig", some fs2)]))
      | _ => (.error (), [("getMotionDetectConfig", none)])

/-! ## Concrete cameras, trees and oracles used by witnesses and
counterexamples.  The `parse` instances record the element tree
`ET.fromstring` produces on the stated input. -/

/-- A camera on a plain-http port, synchronous mode. -/
def camD : FoscamCamera := mkCamera "cam" 88 "u" "p" false none false

/-- A TLS camera whose password contains the substring `http:`. -/
def camT : FoscamCamera := mkCamera "h" 88 "u" "http:q" false (some true) false

/-- A camera on port 443 with no ssl override (TLS resolves on). -/
def camS : FoscamCamera := mkCamera "h" 443 "u" "p" false none false

/-- Tree of `<CGI_Result><result>0</result><foo>bar</foo></CGI_Result>`. -/
def cgiTree : Xml :=
  .elem "CGI_Result" none [.elem "result" (some "0") [], .elem "foo" (some "bar") []]

/-- Tree of `<Resp><result>0</result><foo>bar</foo></Resp>`: same payload
under an envelope not literally named CGI_Result. -/
def respTree : Xml :=
  .elem "Resp" none [.elem "result" (some "0") [], .elem "foo" (some "bar") []]

/-- Tree of `<CGI_Result><result>abc</result></CGI_Result>`: well-formed XML
whose result text is not an integer. -/
def badTree : Xml := .elem "CGI_Result" none [.elem "result" (some "abc") []]

/-- Transport always answering the CGI_Result example document. -/
def fetchCgiExample : String → FetchResult :=
  fun _ => .bytes "<CGI_Result><result>0</result><foo>bar</foo></CGI_Result>"

/-- ET.fromstring on the CGI_Result example document. -/
def parseCgiExample : String → Except Unit Xml := fun _ => .ok cgiTree

/-- Transport always answering the Resp-envelope document. -/
def fetchRespExample : String → FetchResult :=
  fun _ => .bytes "<Resp><result>0</result><foo>bar</foo></Resp>"

/-- ET.fromstring on the Resp-envelope document. -/
def parseRespExample : String → Except Unit Xml := fun _ => .ok respTree

/-- Transport always answering the non-integer-result document. -/
def fetchBadExample : String → FetchResult :=
  fun _ => .bytes "<CGI_Result><result>abc</result></CGI_Result>"

/-- ET.fromstring on the non-integer-result document. -/
def parseBadExample : String → Except Unit Xml := fun _ => .ok badTree

/-- Motion-detection config returned by the demo camera's get command. -/
def getTreeD : Xml := .elem "CGI_Result" none
  [.elem "result" (some "0") [], .elem "isEnable" (some "0") [],
   .elem "sensitivity" (some "5") []]

/-- Set-command reply of the demo camera: result -2 (auth failure). -/
def setTreeD : Xml := .elem "CGI_Result" none [.elem "result" (some "-2") []]

/-- Demo transport: the get URL answers `G`, anything else answers `S`. -/
def fetchD : String → FetchResult := fun u =>
  if u = buildCmdUrl camD "getMotionDetectConfig" none then .bytes "G" else .bytes "S"

/-- Demo parser pairing `G` with the get config and `S` with the -2 reply. -/
def parseD : String → Except Unit Xml := fun b =>
  if b = "G" then .ok getTreeD else .ok setTreeD

/-- Fields decoded from the demo get reply. -/
def fsDemo : Fields := [("isEnable", PyVal.vStr "0"), ("sensitivity", PyVal.vStr "5")]

/-- Set-command reply tree carrying result -3 (command denied). -/
def deniedTree : Xml := .elem "CGI_Result" none [.elem "result" (some "-3") []]

/-- Transport/parser pair whose get phase reports code -3. -/
def fetchDenied : String → FetchResult := fun _ => .bytes "D"

/-- ET.fromstring on the denied reply. -/
def parseDenied : String → Except Unit Xml := fun _ => .ok deniedTree

/-! ## Helper lemmas -/

/-- Membership after an ordered-dict assignment: the element is the assigned
key or was already present. -/
theorem odSet_mem (d : Fields) (k : String) (v : PyVal) (kv : String × PyVal)
    (h : kv ∈ odSet d k v) : kv.1 = k ∨ kv ∈ d := by
  induction d with
  | nil =>
    simp [odSet] at h
    subst h
    exact Or.inl rfl
  | cons hd tl ih =>
    obtain ⟨k0, v0⟩ := hd
    simp only [odSet] at h
    by_cases hk : k0 = k
    · simp [hk] at h
      rcases h with h | h
      · subst h; exact Or.inl rfl
      · exact Or.inr (List.mem_cons_of_mem _ h)
    · simp [hk] at h
      rcases h with h | h
      · subst h; exact Or.inr (List.mem_cons_self _ _)
      · rcases ih h with h2 | h2
        · exact Or.inl h2
        · exact Or.inr (List.mem_cons_of_mem _ h2)

/-- Lookup after an ordered-dict assignment: the assigned key maps to the new
value, every other key keeps its binding. -/
theorem odSet_lookup (d : Fields) (k : String) (v : PyVal) (k2 : String) :
    (odSet d k v).lookup k2 = if k2 = k then some v else d.lookup k2 := by
  induction d with
  | nil =>
    simp [odSet, List.lookup]
    split <;> simp_all [beq_iff_eq]
  | cons hd tl ih =>
    obtain ⟨k0, v0⟩ := hd
    simp only [odSet]
    by_cases hk : k0 = k
    · subst hk
      by_cases h2 : k2 = k0
      · subst h2
        simp [List.lookup]
      · have hb : (k2 == k0) = false := beq_eq_false_iff_ne.mpr h2
        simp [List.lookup, hb, h2]
    · by_cases h2 : k2 = k0
      · have hb : (k2 == k0) = true := beq_iff_eq.mpr h2
        have hkk : ¬k2 = k := fun h => hk (h2.symm.trans h)
        simp [if_neg hk, List.lookup, hb, if_neg hkk]
      · have hb : (k2 == k0) = false := beq_eq_false_iff_ne.mpr h2
        simp [if_neg hk, List.lookup, hb, ih]

/-! ## Claim C5: TLS default at construction -/

/-- C5: a camera constructed with port 443 and no explicit ssl override has
ssl on; with any other port and no override ssl is off; an explicit override
is kept as given. -/
theorem C5_tls_default (host usr pwd : String) (daemon verbose : Bool)
    (port : Nat) (b : Bool) :
    (mkCamera host 443 usr pwd daemon none verbose).ssl = true
    ∧ (port ≠ 443 → (mkCamera host port usr pwd daemon none verbose).ssl = false)
    ∧ (mkCamera host port usr pwd daemon (some b) verbose).ssl = b := by
  refine ⟨?_, ?_, ?_⟩
  · simp [mkCamera, ssl_enabled]
  · intro h
    simp [mkCamera, ssl_enabled, h]
  · simp [mkCamera, ssl_enabled]

/-- C5 witness: port 80 with no override resolves ssl off. -/
theorem C5_tls_default_witness :
    (80 : Nat) ≠ 443 ∧ (mkCamera "h" 80 "u" "p" false none false).ssl = false :=
  ⟨by decide, (C5_tls_default "h" "u" "p" false false 80 true).2.1 (by decide)⟩

/-! ## Claim C7: non-success get phase short-circuits the composite -/

/-- C7: when the get phase of `set_motion_detection` yields a code other than
Success, that code is returned unchanged and the set command is never issued
(the call log holds only the get). -/
theorem C7_get_failure_short_circuits (c : FoscamCamera)
    (fetch : String → FetchResult) (parse : String → Except Unit Xml)
    (enabled : Int) (rc : Int) (cfg : Resp)
    (hget : (getMotionDetectConfig c fetch parse).1 = .ok (some (rc, cfg)))
    (hrc : rc ≠ FOSCAM_SUCCESS) :
    setMotionDetection c fetch parse enabled =
      (.ok rc, [("getMotionDetectConfig", none)]) := by
  simp only [setMotionDetection, hget]
  rw [if_pos hrc]

/-- C7 witness: the demo camera whose get command reports -3 returns -3 and
never issues the set command. -/
theorem C7_get_failure_short_circuits_witness :
    setMotionDetection camD fetchDenied parseDenied 1 =
      (.ok (-3), [("getMotionDetectConfig", none)]) :=
  C7_get_failure_short_circuits camD fetchDenied parseDenied 1 (-3)
    (.fields []) rfl (by decide)

/-! ## Claim C8: raw mode passes bytes through -/

/-- C8: with raw=True, any successfully received byte sequence yields code
Success and the bytes unchanged, whatever the parser would do with them. -/
theorem C8_raw_mode_passthrough (c : FoscamCamera)
    (fetch : String → FetchResult) (parse : String → Except Unit Xml)
    (cmd : String) (params : Option (List (String × PyVal))) (b : String)
    (hfetch : fetch (buildCmdUrl c cmd params) = .bytes b) :
    sendCommand c fetch parse cmd params true = .ok (FOSCAM_SUCCESS, .raw b) := by
  simp [sendCommand, hfetch]

/-- C8 witness: a snapshot body that is not XML passes through unchanged even
when the parser would reject every input. -/
theorem C8_raw_mode_passthrough_witness :
    sendCommand camD (fun _ => .bytes "JPEGDATA") (fun _ => .error ())
      "snapPicture2" none true = .ok (FOSCAM_SUCCESS, .raw "JPEGDATA") :=
  C8_raw_mode_passthrough camD (fun _ => .bytes "JPEGDATA") (fun _ => .error ())
    "snapPicture2" none "JPEGDATA" rfl

/-! ## Claim C10: dispatcher return value -/

/-- C10: in daemon (detached) mode `execute_command` returns None to the
caller for every command, the pair reaching only the optional callback; in
synchronous mode it returns exactly the pair `send_command` produced, and in
either mode the callback fires exactly once when supplied and the send
completed. -/
theorem C10_dispatch_return_contract (c : FoscamCamera)
    (fetch : String → FetchResult) (parse : String → Except Unit Xml)
    (cmd : String) (params : Option (List (String × PyVal)))
    (hasCallback raw : Bool) :
    (executeCommand c fetch parse cmd params hasCallback raw).1 =
      (if c.daemon then .ok none
       else (sendCommand c fetch parse cmd params raw).map some)
    ∧ (executeCommand c fetch parse cmd params hasCallback raw).2 =
      (match sendCommand c fetch parse cmd params raw with
       | .ok r => if hasCallback then [r] else []
       | .error _ => []) := by
  cases hd : c.daemon <;>
    cases hs : sendCommand c fetch parse cmd params raw <;>
      simp [executeCommand, executeWithCallbacks, hd, hs, Except.map]

/-! ## Claim C9: the composite mutates only isEnable -/

/-- C9: when the get phase succeeds, the mapping passed to the set command is
the retrieved mapping with exactly `isEnable` rebound to the requested value;
every other key keeps its binding. -/
theorem C9_frame_only_isEnable (c : FoscamCamera)
    (fetch : String → FetchResult) (parse : String → Except Unit Xml)
    (enabled : Int) (fs : Fields)
    (hget : (getMotionDetectConfig c fetch parse).1 =
      .ok (some (FOSCAM_SUCCESS, .fields fs))) :
    (setMotionDetection c fetch parse enabled).2 =
      [("getMotionDetectConfig", none),
       ("setMotionDetectConfig", some (odSet fs "isEnable" (PyVal.vInt enabled)))]
    ∧ (odSet fs "isEnable" (PyVal.vInt enabled)).lookup "isEnable" =
        some (PyVal.vInt enabled)
    ∧ ∀ k, k ≠ "isEnable" →
        (odSet fs "isEnable" (PyVal.vInt enabled)).lookup k = fs.lookup k := by
  refine ⟨?_, ?_, ?_⟩
  · simp only [setMotionDetection, hget]
    rw [if_neg (by simp)]
    cases hs : (setMotionDetectConfig c fetch parse
        (odSet fs "isEnable" (PyVal.vInt enabled))).1 <;> simp [hs]
  · simp [odSet_lookup]
  · intro k hk
    simp [odSet_lookup, hk]

/-- C9 witness: on the demo camera the set command receives the retrieved
config with only isEnable rebound; sensitivity keeps its binding. -/
theorem C9_frame_only_isEnable_witness :
    (setMotionDetection camD fetchD parseD 1).2 =
      [("getMotionDetectConfig", none),
       ("setMotionDetectConfig", some (odSet fsDemo "isEnable" (PyVal.vInt 1)))]
    ∧ (odSet fsDemo "isEnable" (PyVal.vInt 1)).lookup "sensitivity" =
        fsDemo.lookup "sensitivity" :=
  ⟨(C9_frame_only_isEnable camD fetchD parseD 1 fsDemo rfl).1,
   (C9_frame_only_isEnable camD fetchD parseD 1 fsDemo rfl).2.2 "sensitivity"
     (by decide)⟩

/-! ## Claim C2: what the composite returns after a successful get -/

/-- C2 counterexample: on the demo camera the get phase succeeds, the set
command reports -2 (auth failure), yet `set_motion_detection` returns 0, not
the set-command's resulting code. -/
theorem C2_set_code_discarded_cex :
    (getMotionDetectConfig camD fetchD parseD).1 =
      .ok (some (FOSCAM_SUCCESS, .fields fsDemo))
    ∧ (setMotionDetectConfig camD fetchD parseD
        (odSet fsDemo "isEnable" (PyVal.vInt 1))).1 =
      .ok (some (ERROR_FOSCAM_AUTH, .fields []))
    ∧ (setMotionDetection camD fetchD parseD 1).1 = .ok FOSCAM_SUCCESS
    ∧ FOSCAM_SUCCESS ≠ ERROR_FOSCAM_AUTH :=
  ⟨rfl, rfl, rfl, by decide⟩

/-- C2 (amended): when the get phase returns Success, the set command is
executed synchronously and `set_motion_detection` returns FOSCAM_SUCCESS
unconditionally — the set-command's own resulting code is discarded. -/
theorem C2_set_executed_returns_success (c : FoscamCamera)
    (fetch : String → FetchResult) (parse : String → Except Unit Xml)
    (enabled : Int) (fs : Fields) (sc : Int) (sr : Resp)
    (hget : (getMotionDetectConfig c fetch parse).1 =
      .ok (some (FOSCAM_SUCCESS, .fields fs)))
    (hset : (setMotionDetectConfig c fetch parse
        (odSet fs "isEnable" (PyVal.vInt enabled))).1 = .ok (some (sc, sr))) :
    setMotionDetection c fetch parse enabled =
      (.ok FOSCAM_SUCCESS,
       [("getMotionDetectConfig", none),
        ("setMotionDetectConfig", some (odSet fs "isEnable" (PyVal.vInt enabled)))]) := by
  simp only [setMotionDetection, hget]
  rw [if_neg (by simp)]
  simp [hset]

/-- C2 witness: the demo camera run, with the set phase reporting -2 and the
composite still returning 0. -/
theorem C2_set_executed_returns_success_witness :
    setMotionDetection camD fetchD parseD 1 =
      (.ok FOSCAM_SUCCESS,
       [("getMotionDetectConfig", none),
        ("setMotionDetectConfig", some (odSet fsDemo "isEnable" (PyVal.vInt 1)))]) :=
  C2_set_executed_returns_success camD fetchD parseD 1 fsDemo
    ERROR_FOSCAM_AUTH (.fields []) rfl rfl

/-! ## Claim C1: failure handling in non-raw decoding -/

/-- C1 counterexample: the response
`<CGI_Result><result>abc</result></CGI_Result>` parses as XML, so the except
clause is not taken, and then `int("abc")` raises past the send_command
boundary instead of yielding code -8. -/
theorem C1_decode_raises_cex :
    sendCommand camD fetchBadExample parseBadExample "getDevInfo" none false =
      .error () := rfl

/-- C1 (amended): every transport failure, and every byte sequence the XML
parser rejects (empty or malformed input), yields exactly
`(ERROR_FOSCAM_UNAVAILABLE, None)` — never a partially populated mapping;
decoding can still raise past send_command when the document parses but a
result element's text is not an integer. -/
theorem C1_failure_unavailable (c : FoscamCamera)
    (fetch : String → FetchResult) (parse : String → Except Unit Xml)
    (cmd : String) (params : Option (List (String × PyVal))) :
    (fetch (buildCmdUrl c cmd params) = .err →
      sendCommand c fetch parse cmd params false =
        .ok (ERROR_FOSCAM_UNAVAILABLE, .noneV))
    ∧ (∀ b, fetch (buildCmdUrl c cmd params) = .bytes b → parse b = .error () →
      sendCommand c fetch parse cmd params false =
        .ok (ERROR_FOSCAM_UNAVAILABLE, .noneV)) := by
  constructor
  · intro hfetch
    simp [sendCommand, hfetch]
  · intro b hfetch hparse
    simp [sendCommand, hfetch, hparse]

/-- C1 witness: a transport failure and a parse failure on the malformed body
`<notxml` both yield exactly (-8, None). -/
theorem C1_failure_unavailable_witness :
    sendCommand camD (fun _ => .err) (fun _ => .error ()) "getDevInfo" none false =
      .ok (ERROR_FOSCAM_UNAVAILABLE, .noneV)
    ∧ sendCommand camD (fun _ => .bytes "<notxml") (fun _ => .error ())
        "getDevInfo" none false = .ok (ERROR_FOSCAM_UNAVAILABLE, .noneV) :=
  ⟨(C1_failure_unavailable camD (fun _ => .err) (fun _ => .error ())
      "getDevInfo" none).1 rfl,
   (C1_failure_unavailable camD (fun _ => .bytes "<notxml") (fun _ => .error ())
      "getDevInfo" none).2 "<notxml" rfl rfl⟩

/-! ## Claim C3: which keys the decoder can emit -/

/-- One decode step never introduces a key named `result` or `CGI_Result`. -/
theorem decodeStep_keys (st st2 : Int × Fields) (x : Xml)
    (h : decodeStep st x = .ok st2)
    (hinv : ∀ kv ∈ st.2, kv.1 ≠ "result" ∧ kv.1 ≠ "CGI_Result") :
    ∀ kv ∈ st2.2, kv.1 ≠ "result" ∧ kv.1 ≠ "CGI_Result" := by
  obtain ⟨tag, text, cs⟩ := x
  simp only [decodeStep] at h
  by_cases h1 : tag = "result"
  · rw [if_pos h1] at h
    cases hp : pyInt text with
    | ok n =>
      rw [hp] at h
      cases h
      exact hinv
    | error e =>
      rw [hp] at h
      cases h
  · rw [if_neg h1] at h
    by_cases h2 : tag = "CGI_Result"
    · rw [if_pos h2] at h
      cases h
      exact hinv
    · rw [if_neg h2] at h
      cases h
      intro kv hkv
      rcases odSet_mem _ _ _ _ hkv with heq | hold
      · rw [heq]
        exact ⟨h1, h2⟩
      · exact hinv kv hold

/-- The decode fold preserves the key exclusion. -/
theorem decodeFold_keys (l : List Xml) (st : Int × Fields) (code : Int)
    (fs : Fields)
    (hinv : ∀ kv ∈ st.2, kv.1 ≠ "result" ∧ kv.1 ≠ "CGI_Result")
    (h : l.foldlM decodeStep st = .ok (code, fs)) :
    ∀ kv ∈ fs, kv.1 ≠ "result" ∧ kv.1 ≠ "CGI_Result" := by
  induction l generalizing st with
  | nil =>
    simp only [List.foldlM_nil, pure, Except.pure] at h
    cases h
    exact hinv
  | cons x xs ih =>
    rw [List.foldlM_cons] at h
    cases hx : decodeStep st x with
    | error e =>
      rw [hx] at h
      simp [Bind.bind, Except.bind] at h
    | ok st2 =>
      rw [hx] at h
      simp only [Bind.bind, Except.bind] at h
      exact ih st2 (decodeStep_keys st st2 x hx hinv) h

/-- C3 counterexample: under an envelope not literally named CGI_Result —
here `<Resp><result>0</result><foo>bar</foo></Resp>` — the outer envelope tag
itself appears as a field key (with value None), so the exclusion does not
hold for an arbitrary envelope tag. -/
theorem C3_envelope_tag_leaks_cex :
    sendCommand camD fetchRespExample parseRespExample "getDevInfo" none false =
      .ok (0, .fields [("Resp", PyVal.vNone), ("foo", PyVal.vStr "bar")])
    ∧ "Resp" ∈ ([("Resp", PyVal.vNone), ("foo", PyVal.vStr "bar")] : Fields).map
        Prod.fst :=
  ⟨rfl, by simp⟩

/-- C3 (amended): a decoded non-raw fields mapping never contains a key named
`result` or the literal envelope name `CGI_Result` (the exclusion is by those
two literal tags, not by whatever tag the outer envelope actually has), and
decoding `<CGI_Result><result>0</result><foo>bar</foo></CGI_Result>` yields
code 0 and exactly the field foo=bar. -/
theorem C3_fields_exclude_result_keys :
    (∀ (c : FoscamCamera) (fetch : String → FetchResult)
      (parse : String → Except Unit Xml) (cmd : String)
      (params : Option (List (String × PyVal))) (code : Int) (fs : Fields),
      sendCommand c fetch parse cmd params false = .ok (code, .fields fs) →
      ∀ kv ∈ fs, kv.1 ≠ "result" ∧ kv.1 ≠ "CGI_Result")
    ∧ sendCommand camD fetchCgiExample parseCgiExample "getDevInfo" none false =
        .ok (0, .fields [("foo", PyVal.vStr "bar")]) := by
  constructor
  · intro c fetch parse cmd params code fs h
    simp only [sendCommand] at h
    cases hf : fetch (buildCmdUrl c cmd params) with
    | err =>
      rw [hf] at h
      cases h
    | bytes b =>
      rw [hf] at h
      simp only [Bool.false_eq_true, if_false] at h
      cases hp : parse b with
      | error e =>
        rw [hp] at h
        cases h
      | ok root =>
        rw [hp] at h
        dsimp only at h
        cases hd : decodeAll root with
        | error e =>
          rw [hd] at h
          cases h
        | ok p =>
          obtain ⟨cd, f2⟩ := p
          rw [hd] at h
          simp only [Except.ok.injEq, Prod.mk.injEq, Resp.fields.injEq] at h
          obtain ⟨hcd, hfs⟩ := h
          subst hfs
          exact decodeFold_keys root.iter _ cd f2 (by simp) hd
  · rfl

/-- C3 witness: the concrete field emitted by the round-trip example is named
neither result nor CGI_Result. -/
theorem C3_fields_exclude_result_keys_witness :
    ("foo", PyVal.vStr "bar").1 ≠ "result"
    ∧ ("foo", PyVal.vStr "bar").1 ≠ "CGI_Result" :=
  C3_fields_exclude_result_keys.1 camD fetchCgiExample parseCgiExample
    "getDevInfo" none 0 [("foo", PyVal.vStr "bar")] rfl
    ("foo", PyVal.vStr "bar") (by simp)

/-! ## Claim C4: the TLS scheme rewrite -/

/-- Scan step on a position where `http:` does not start: the head character
is kept and the scan continues on the tail. -/
theorem replaceHttpL_cons (c : Char) (rest : List Char)
    (h : startsHttp (c :: rest) = false) :
    replaceHttpL (c :: rest) = c :: replaceHttpL rest := by
  rw [replaceHttpL.eq_def]
  split
  · rename_i heq
    rw [show c :: rest = 'h' :: 't' :: 't' :: 'p' :: ':' :: _ from heq] at h
    simp [startsHttp] at h
  · rename_i c2 rest2 hne heq
    injection heq with h1 h2
    rw [h1, h2]
  · rename_i heq
    cases heq

/-- str.replace leaves a string without any `http:` occurrence unchanged. -/
theorem replaceHttpL_id (l : List Char) (h : hasSubHttp l = false) :
    replaceHttpL l = l := by
  induction l with
  | nil => rfl
  | cons c rest ih =>
    rw [hasSubHttp] at h
    rcases Bool.or_eq_false_iff.mp h with ⟨h1, h2⟩
    rw [replaceHttpL_cons c rest h1, ih h2]

/-- C4 counterexample: for the TLS camera whose password contains `http:`,
the rewrite changes more than the scheme — the remainder of the rewritten URL
(after `https:`) differs from the remainder of the pre-rewrite URL (after
`http:`), because the password's own `http:` was rewritten too. -/
theorem C4_rewrite_alters_query_cex :
    camT.ssl = true
    ∧ (buildCmdUrl camT "getIPInfo" none).data.take 6 = "https:".data
    ∧ (buildCmdUrl camT "getIPInfo" none).data.drop 6 ≠
        (buildCmdUrlHttp camT "getIPInfo" none).data.drop 5 :=
  ⟨rfl, by decide, by decide⟩

/-- C4 (amended): the URL keeps scheme http exactly when ssl is off; when ssl
is on every occurrence of `http:` in the URL is replaced by `https:`, which
changes only the scheme provided no other URL component contains the
substring `http:`. -/
theorem C4_scheme_rewrite (c : FoscamCamera) (cmd : String)
    (params : Option (List (String × PyVal))) :
    (c.ssl = false → buildCmdUrl c cmd params = buildCmdUrlHttp c cmd params)
    ∧ (buildCmdUrlHttp c cmd params).data.take 7 = "http://".data
    ∧ (c.ssl = true →
        hasSubHttp ((buildCmdUrlHttp c cmd params).data.drop 5) = false →
        (buildCmdUrl c cmd params).data =
          "https:".data ++ (buildCmdUrlHttp c cmd params).data.drop 5) := by
  refine ⟨?_, ?_, ?_⟩
  · intro h
    simp [buildCmdUrl, h]
  · rw [buildCmdUrlHttp, String.data_append]
    exact List.take_left' rfl
  · intro hssl hno
    have hdata : (buildCmdUrlHttp c cmd params).data =
        "http://".data ++ (c.url ++ ("/cgi-bin/CGIProxy.fcgi?usr=" ++ (c.usr ++
          ("&pwd=" ++ (c.pwd ++ ("&cmd=" ++ (cmd ++ paramStr params))))))).data := by
      rw [buildCmdUrlHttp, String.data_append]
    rw [buildCmdUrl, hssl]
    simp only [ssl_enabled, Bool.and_self, if_true]
    rw [show (replaceHttp (buildCmdUrlHttp c cmd params)).data =
        replaceHttpL (buildCmdUrlHttp c cmd params).data from rfl]
    rw [hdata] at hno ⊢
    set r := (c.url ++ ("/cgi-bin/CGIProxy.fcgi?usr=" ++ (c.usr ++
      ("&pwd=" ++ (c.pwd ++ ("&cmd=" ++ (cmd ++ paramStr params))))))).data with hr
    have hshape : "http://".data ++ r = 'h' :: 't' :: 't' :: 'p' :: ':' :: '/' :: '/' :: r := rfl
    rw [hshape] at hno ⊢
    have hdrop : ('h' :: 't' :: 't' :: 'p' :: ':' :: '/' :: '/' :: r).drop 5 =
        '/' :: '/' :: r := rfl
    rw [hdrop] at hno
    rw [show replaceHttpL ('h' :: 't' :: 't' :: 'p' :: ':' :: '/' :: '/' :: r) =
        'h' :: 't' :: 't' :: 'p' :: 's' :: ':' :: replaceHttpL ('/' :: '/' :: r) from rfl]
    rw [replaceHttpL_id ('/' :: '/' :: r) hno]
    rfl

/-- C4 witness: on the clean port-443 camera the rewrite changes only the
scheme. -/
theorem C4_scheme_rewrite_witness :
    (buildCmdUrl camS "getIPInfo" none).data =
      "https:".data ++ (buildCmdUrlHttp camS "getIPInfo" none).data.drop 5 :=
  (C4_scheme_rewrite camS "getIPInfo" none).2.2 rfl (by decide)

/-! ## Claim C6: the URL format -/

/-- Modelled from the spec: the parameter part of the wire-protocol URL
`[&key=value]*` — one `&`-prefixed, query-encoded pair per entry, in
insertion order, and empty (no extra `&`) for an empty mapping. -/
def specParams : List (String × PyVal) → String
  | [] => ""
  | kv :: rest =>
    "&" ++ (quotePlus kv.1 ++ ("=" ++ (quotePlus (pyStrOfVal kv.2) ++ specParams rest)))

/-- Modelled from the spec: the wire-protocol URL
`http://{host}:{port}/cgi-bin/CGIProxy.fcgi?usr={u}&pwd={p}&cmd={name}[&key=value]*`. -/
def specUrl (c : FoscamCamera) (cmd : String) (P : List (String × PyVal)) : String :=
  "http://" ++ (c.host ++ (":" ++ (toString c.port ++
    ("/cgi-bin/CGIProxy.fcgi?usr=" ++ (c.usr ++ ("&pwd=" ++ (c.pwd ++
      ("&cmd=" ++ (cmd ++ specParams P)))))))))

/-- Prefixing a nonempty `&`-join with `&` yields exactly the spec's
`&`-prefixed-pair serialization. -/
theorem amp_join (P : List (String × PyVal)) (a : String) :
    "&" ++ joinSep "&" (a :: P.map pairEnc) =
      "&" ++ (a ++ specParams P) := by
  induction P generalizing a with
  | nil =>
    rw [List.map_nil, specParams]
    rw [show joinSep "&" [a] = a from rfl]
    rw [String.append_empty]
  | cons kv rest ih =>
    rw [List.map_cons]
    rw [show joinSep "&" (a :: pairEnc kv :: rest.map pairEnc) =
      a ++ ("&" ++ joinSep "&" (pairEnc kv :: rest.map pairEnc)) from rfl]
    have h2 := ih (pairEnc kv)
    rw [specParams]
    simp only [String.append_assoc] at h2 ⊢
    rw [h2]
    simp [pairEnc, String.append_assoc]

/-- The urlencoding of a nonempty mapping is a nonempty string (its first
pair contains `=`). -/
theorem urlencode_cons_ne (kv : String × PyVal) (rest : List (String × PyVal)) :
    urlencode (kv :: rest) ≠ "" := by
  rw [urlencode, List.map_cons]
  cases h : rest.map pairEnc with
  | nil =>
    rw [show joinSep "&" [pairEnc kv] = pairEnc kv from rfl]
    intro hem
    have hd := congrArg String.data hem
    simp [pairEnc, String.data_append] at hd
  | cons b l =>
    rw [show joinSep "&" (pairEnc kv :: b :: l) =
      pairEnc kv ++ ("&" ++ joinSep "&" (b :: l)) from rfl]
    intro hem
    have hd := congrArg String.data hem
    simp [pairEnc, String.data_append] at hd

/-- The source's `paramstr` equals the spec's parameter serialization. -/
theorem paramStr_some (P : List (String × PyVal)) :
    paramStr (some P) = specParams P := by
  cases P with
  | nil => rfl
  | cons kv rest =>
    rw [paramStr]
    rw [if_neg (by simp)]
    rw [if_neg (urlencode_cons_ne kv rest)]
    rw [urlencode, List.map_cons]
    rw [amp_join rest (pairEnc kv), specParams]
    simp [pairEnc, String.append_assoc]

/-- C6: for every camera, command and parameter mapping, the pre-rewrite
command URL is exactly
`http://{host}:{port}/cgi-bin/CGIProxy.fcgi?usr={u}&pwd={p}&cmd={C}` followed
by one query-encoded `&key=value` per entry in insertion order; absent
parameters behave as the empty mapping (no trailing `&`). -/
theorem C6_url_format (c : FoscamCamera) (cmd : String)
    (P : List (String × PyVal)) :
    buildCmdUrlHttp c cmd (some P) = specUrl c cmd P
    ∧ buildCmdUrlHttp c cmd none = specUrl c cmd [] := by
  constructor
  · rw [buildCmdUrlHttp, specUrl, FoscamCamera.url, paramStr_some]
    simp [String.append_assoc]
  · rw [buildCmdUrlHttp, specUrl, FoscamCamera.url]
    rw [show paramStr none = "" from rfl, show specParams [] = "" from rfl]
    simp [String.append_assoc]
